import Mathlib

/-!
Verification of the paperless-ngx-ocr2 OCR pipeline against its source.

Each definition below is a shallow embedding of a function of the Rust
source (file and symbol given in its doc comment). Machine integers are
modelled as Nat/Int (no overflow is reachable at the sizes involved),
Rust `Result<T, Error>` as `Except Err T`, and Rust strings as `String`
(the checks involved are ASCII-only, where Rust's byte-based `len`/slicing
and char-based iteration agree).
-/

namespace POcr

/-- Model of Rust `str::starts_with` on character lists: the second list
is a prefix of the first. -/
def startsWithSeq : List Char → List Char → Bool
  | _, [] => true
  | [], _ :: _ => false
  | a :: as, b :: bs => a == b && startsWithSeq as bs

/-- Model of Rust `str::contains` on character lists: the second list
occurs contiguously inside the first. -/
def containsSeq : List Char → List Char → Bool
  | [], pat => pat.isEmpty
  | s@(_ :: rest), pat => startsWithSeq s pat || containsSeq rest pat

/-- Model of Rust `str::contains` on strings. -/
def strContains (s pat : String) : Bool :=
  containsSeq s.data pat.data

/-- `src/error.rs` `enum Error`: the six error variants of the program
(`Io` carries a `std::io::Error`; we keep its rendered message). -/
inductive Err where
  | validation (msg : String)
  | io (msg : String)
  | config (msg : String)
  | api (msg : String)
  | network (msg : String)
  | internal (msg : String)
deriving DecidableEq, Repr

/-- `src/error.rs` `Error::exit_code`. -/
def Err.exitCode : Err → Int
  | .validation _ => 2
  | .io _ => 3
  | .config _ => 4
  | .api _ => 5
  | .network _ => 5
  | .internal _ => 5

/-- `src/error.rs` `Error::error_type`: the category string used in JSON
output. Note the source maps the `Config` variant to the string "api". -/
def Err.errorType : Err → String
  | .validation _ => "validation"
  | .io _ => "file_io"
  | .config _ => "api"
  | .api _ => "api"
  | .network _ => "network"
  | .internal _ => "internal"

/-- `src/error.rs` `Error::from_http_status`. -/
def fromHttpStatus (status : Nat) (message : String) : Err :=
  if 400 ≤ status ∧ status ≤ 499 then
    .validation ("Client error (" ++ toString status ++ "): " ++ message)
  else if 500 ≤ status ∧ status ≤ 599 then
    .api ("Server error (" ++ toString status ++ "): " ++ message)
  else
    .internal ("Unexpected HTTP status (" ++ toString status ++ "): " ++ message)

/-- `src/main.rs` `main`: exit code of the whole run, `0` on `Ok(())` and
`e.exit_code()` on `Err(e)`. -/
def mainExitCode : Except Err Unit → Int
  | .ok _ => 0
  | .error e => e.exitCode

/-- An HTTP response as seen by `MistralClient::handle_response`
(`src/api/mod.rs`): its status code and the error message the handler
extracts from the body on a non-2xx status (the parsed `error` field when
the body is JSON with one, the raw body text otherwise). -/
structure Response where
  status : Nat
  errorText : String
deriving DecidableEq, Repr

/-- `src/api/mod.rs` `MistralClient::handle_response`: pass 2xx responses
through, turn every other status into an error via
`Error::from_http_status`. -/
def handleResponse (r : Response) : Except Err Response :=
  if 200 ≤ r.status ∧ r.status ≤ 299 then .ok r
  else .error (fromHttpStatus r.status r.errorText)

/-- `src/api/mod.rs` `execute_with_retry`'s `MAX_RETRIES` constant. -/
def maxRetries : Nat := 3

/-- The rate-limit test applied by `execute_with_retry`'s `Err` branch
(`src/api/mod.rs`): the error is `Error::Api` and its message contains
"429" or "rate limit". -/
def Err.isRateLimitApi : Err → Bool
  | .api m => strContains m "429" || strContains m "rate limit"
  | _ => false

/-- `src/api/mod.rs` `MistralClient::execute_with_retry`, one loop
iteration per fuel unit (`fuel = maxRetries + 1` covers the Rust
`for attempt in 0..=MAX_RETRIES`; fuel exhaustion is the `unreachable!`).
`requestFn n` is the outcome of the n-th invocation of the caller's
request closure; the second component counts those invocations. -/
def executeWithRetryGo (requestFn : Nat → Except Err Response) :
    Nat → Nat → Except Err Response × Nat
  | _, 0 => (.error (.internal "unreachable"), 0)
  | attempt, fuel + 1 =>
    match requestFn attempt with
    | .ok r =>
      if r.status = 429 then
        if attempt < maxRetries then
          let rec' := executeWithRetryGo requestFn (attempt + 1) fuel
          (rec'.1, rec'.2 + 1)
        else
          (.error (fromHttpStatus 429 "Rate limit exceeded after 3 retries"), 1)
      else (.ok r, 1)
    | .error e =>
      if e.isRateLimitApi ∧ attempt < maxRetries then
        let rec' := executeWithRetryGo requestFn (attempt + 1) fuel
        (rec'.1, rec'.2 + 1)
      else (.error e, 1)

/-- Result of `execute_with_retry`. -/
def executeWithRetry (requestFn : Nat → Except Err Response) : Except Err Response :=
  (executeWithRetryGo requestFn 0 (maxRetries + 1)).1

/-- Number of HTTP attempts `execute_with_retry` makes. -/
def httpAttempts (requestFn : Nat → Except Err Response) : Nat :=
  (executeWithRetryGo requestFn 0 (maxRetries + 1)).2

/-- The request closure every production call site passes to
`execute_with_retry` (`src/api/files.rs` `upload_file`,
`upload_file_streaming`; `src/api/ocr.rs` `process_ocr`): send the
request and feed the response through `MistralClient::handle_response`.
`server n` is the server's response to the n-th attempt. -/
def boundaryRequest (server : Nat → Response) (attempt : Nat) : Except Err Response :=
  handleResponse (server attempt)

/-- A server that answers every attempt with HTTP 429. -/
def const429Server : Nat → Response := fun _ => ⟨429, "Too Many Requests"⟩

/-- A server that answers every attempt with HTTP 502. -/
def const502Server : Nat → Response := fun _ => ⟨502, "Bad Gateway"⟩

/-- `src/api/error.rs` `impl From<APIErrorResponse> for APIError`: the
status-code → category mapping of the repository's secondary error type
(exercised only by the contract tests, not by the pipeline). -/
def apiErrorTypeOfCode : Option Int → String
  | none => "api"
  | some c =>
    if c = 400 then "validation"
    else if 401 ≤ c ∧ c ≤ 404 then "api"
    else if c = 429 then "network"
    else if c = 500 then "api"
    else if 502 ≤ c ∧ c ≤ 503 then "network"
    else "api"

/-- C2: the claimed boundary mapping fails on the live code path. 400 does
map to validation, and plain 5xx to api; but 401 (like 403/404 and 429)
is mapped by `Error::from_http_status` to Validation (exit 2), not api;
a stream of 429s is answered after a single attempt with a Validation
error, not retried into a network error; a stream of 502s is answered
after a single attempt with an api error, not retried into a network
error. The repository's own `APIError` mapping (asserted by its contract
tests) gives the claimed categories 401 → api, 429 → network,
502 → network. -/
theorem C2_http_status_mapping :
    fromHttpStatus 400 "Bad Request" = .validation "Client error (400): Bad Request" ∧
    (fromHttpStatus 401 "Unauthorized").errorType = "validation" ∧
    (fromHttpStatus 401 "Unauthorized").exitCode = 2 ∧
    (fromHttpStatus 404 "Not Found").errorType = "validation" ∧
    (fromHttpStatus 500 "Internal Server Error").errorType = "api" ∧
    executeWithRetry (boundaryRequest const429Server)
      = .error (.validation "Client error (429): Too Many Requests") ∧
    httpAttempts (boundaryRequest const429Server) = 1 ∧
    executeWithRetry (boundaryRequest const502Server)
      = .error (.api "Server error (502): Bad Gateway") ∧
    httpAttempts (boundaryRequest const502Server) = 1 ∧
    apiErrorTypeOfCode (some 401) = "api" ∧
    apiErrorTypeOfCode (some 429) = "network" ∧
    apiErrorTypeOfCode (some 502) = "network" := by
  refine ⟨by decide, by decide, by decide, by decide, by decide, by rfl,
    by decide, by rfl, by decide, by decide, by decide, by decide⟩

/-- C3: for a server answering every attempt with HTTP 429, the transport
makes exactly one HTTP attempt — not `1 + maxRetries = 4` — because
`handle_response` turns the 429 into an `Error::Validation`, which the
retry loop's `Err` branch does not recognize as a rate limit (it matches
only `Error::Api`). Fed raw 429 responses directly (which no production
call site does), the loop itself would make the claimed `1 + maxRetries`
attempts. -/
theorem C3_retry_bound_dead :
    httpAttempts (boundaryRequest const429Server) = 1 ∧
    httpAttempts (boundaryRequest const429Server) ≠ 1 + maxRetries ∧
    executeWithRetry (boundaryRequest const429Server)
      = .error (.validation "Client error (429): Too Many Requests") ∧
    httpAttempts (fun _ => .ok ⟨429, "Too Many Requests"⟩) = 1 + maxRetries := by
  refine ⟨by decide, by decide, by rfl, by decide⟩

/-- C1: for every run ending in an error, the exit code is determined by
the error's category exactly as assigned — validation 2, file_io (Io) 3,
config 4, and api, network, internal each 5 — and a successful run
exits 0. -/
theorem C1_exit_codes :
    (∀ m : String,
      (Err.validation m).exitCode = 2 ∧
      (Err.io m).exitCode = 3 ∧
      (Err.config m).exitCode = 4 ∧
      (Err.api m).exitCode = 5 ∧
      (Err.network m).exitCode = 5 ∧
      (Err.internal m).exitCode = 5) ∧
    (∀ e : Err, mainExitCode (.error e) = e.exitCode) ∧
    mainExitCode (.ok ()) = 0 := by
  refine ⟨fun m => ⟨rfl, rfl, rfl, rfl, rfl, rfl⟩, fun e => rfl, rfl⟩

/-- `src/credentials.rs` `struct APICredentials`. -/
structure APICredentials where
  apiKey : String
  apiBaseUrl : String
  isValid : Bool
deriving DecidableEq, Repr

/-- The API-key checks of `src/credentials.rs` `APICredentials::validate`
(the URL checks that follow them in the source concern `api_base_url`
only and are not modelled). -/
def credentialsKeyChecks (c : APICredentials) : Except Err Unit :=
  if c.apiKey = "" then .error (.config "API key must not be empty")
  else if c.apiKey.data.any Char.isWhitespace then
    .error (.config "API key must not contain whitespace")
  else .ok ()

/-- `src/credentials.rs` `APICredentials::get_auth_header`. -/
def getAuthHeader (c : APICredentials) : String :=
  "Bearer " ++ c.apiKey

/-- `src/credentials.rs` `APICredentials::redacted_key`: first four
characters followed by "***" when the key is longer than 8, "***"
otherwise (Rust's byte-based `len`/`[..4]` agree with the character-based
model on ASCII keys). -/
def redactedKey (c : APICredentials) : String :=
  if c.apiKey.length > 8 then String.mk (c.apiKey.data.take 4) ++ "***"
  else "***"

/-- `src/api/mod.rs` `MistralClient::log_request`: the debug log line,
`"API Request: {method} {url} (auth: {redacted})"`. -/
def logRequestMessage (method url : String) (c : APICredentials) : String :=
  "API Request: " ++ method ++ " " ++ url ++ " (auth: " ++ redactedKey c ++ ")"

theorem startsWithSeq_length {s p : List Char} (h : startsWithSeq s p = true) :
    p.length ≤ s.length := by
  induction s generalizing p with
  | nil =>
    cases p with
    | nil => simp
    | cons b bs => simp [startsWithSeq] at h
  | cons a as ih =>
    cases p with
    | nil => simp
    | cons b bs =>
      simp only [startsWithSeq, Bool.and_eq_true] at h
      simpa using ih h.2

theorem containsSeq_length {s p : List Char} (h : containsSeq s p = true) :
    p.length ≤ s.length := by
  induction s with
  | nil =>
    simp only [containsSeq, List.isEmpty_iff] at h
    simp [h]
  | cons a as ih =>
    simp only [containsSeq, Bool.or_eq_true] at h
    rcases h with h | h
    · exact startsWithSeq_length h
    · exact le_trans (ih h) (by simp)

/-- `src/api/files.rs` `struct FileUploadResponse` (the parsed 2xx upload
receipt). Rust `i64` fields are modelled as `Int`. -/
structure FileUploadResponse where
  id : String
  object : String
  bytes : Int
  created_at : Int
  filename : String
  purpose : String
  status : Option String
deriving DecidableEq, Repr

/-- The status strings `FileUploadResponse::validate` accepts. -/
def validStatuses : List String := ["uploaded", "processing", "processed", "error"]

/-- `src/api/files.rs` `FileUploadResponse::validate`, with the checks in
source order. `now` is `chrono::Utc::now().timestamp()`. The status
"error" only logs a warning and passes. (Rust `char::is_alphanumeric` is
Unicode-aware; `Char.isAlphanum` agrees on ASCII ids.) -/
def fileUploadValidate (now : Int) (r : FileUploadResponse) : Except Err Unit :=
  if r.id = "" then .error (.validation "File ID cannot be empty")
  else if ¬ (r.id.data.all fun c => c.isAlphanum || c = '-' || c = '_') then
    .error (.validation ("Invalid file ID format: '" ++ r.id ++ "' contains invalid characters"))
  else if r.object ≠ "file" then
    .error (.validation ("Object must be 'file', got '" ++ r.object ++ "'"))
  else if r.bytes ≤ 0 then .error (.validation "File size must be positive")
  else if r.created_at ≤ 0 then .error (.validation "Created timestamp must be positive")
  else if now + 3600 < r.created_at then
    .error (.validation ("Created timestamp is too far in the future: " ++ toString r.created_at))
  else if r.filename = "" then .error (.validation "Filename cannot be empty")
  else if r.filename.data.contains '/' || r.filename.data.contains '\\' then
    .error (.validation ("Filename cannot contain path separators: '" ++ r.filename ++ "'"))
  else if r.purpose ≠ "ocr" then
    .error (.validation ("Purpose must be 'ocr', got '" ++ r.purpose ++ "'"))
  else
    match r.status with
    | none => .ok ()
    | some st =>
      if validStatuses.contains st then .ok ()
      else
        .error (.validation ("Invalid status '" ++ st
          ++ "', must be one of: uploaded, processing, processed, error"))

/-- `src/api/ocr.rs` `struct Dimensions` (Rust `i32` as `Int`). -/
structure Dimensions where
  dpi : Int
  height : Int
  width : Int
deriving DecidableEq, Repr

/-- `src/api/ocr.rs` `struct Page`. -/
structure Page where
  index : Int
  markdown : String
  images : List String
  dimensions : Dimensions
deriving DecidableEq, Repr

/-- `src/api/ocr.rs` `struct UsageInfo`. -/
structure UsageInfo where
  pages_processed : Int
  doc_size_bytes : Int
deriving DecidableEq, Repr

/-- `src/api/ocr.rs` `struct OCRResponse`. -/
structure OCRResponse where
  pages : List Page
  model : String
  document_annotation : Option String
  usage_info : UsageInfo
deriving DecidableEq, Repr

/-- `src/api/ocr.rs` `OCRResponse::get_extracted_text`: the page
markdowns, in the order they sit in `pages`, joined by "\n\n". -/
def getExtractedText (r : OCRResponse) : String :=
  String.intercalate "\n\n" (r.pages.map Page.markdown)

/-- The per-page loop of `OCRResponse::validate` (`src/api/ocr.rs`),
carrying the enumeration ordinal: index mismatch and non-positive
dimensions are errors; empty markdown and unusual DPI only log
warnings. -/
def checkPagesFrom : Nat → List Page → Except Err Unit
  | _, [] => .ok ()
  | i, p :: rest =>
    if p.index ≠ (i : Int) then
      .error (.validation ("Page index mismatch: expected " ++ toString i
        ++ ", got " ++ toString p.index))
    else if p.dimensions.width ≤ 0 ∨ p.dimensions.height ≤ 0 then
      .error (.validation ("Invalid page dimensions: width=" ++ toString p.dimensions.width
        ++ ", height=" ++ toString p.dimensions.height))
    else checkPagesFrom (i + 1) rest

/-- `src/api/ocr.rs` `OCRResponse::validate`, with the checks in source
order. -/
def ocrValidate (r : OCRResponse) : Except Err Unit :=
  if r.model = "" then .error (.validation "Response model cannot be empty")
  else if ¬ startsWithSeq r.model.data "mistral-".data then
    .error (.validation ("Invalid model name format: expected 'mistral-*', got '"
      ++ r.model ++ "'"))
  else if r.pages.isEmpty then
    .error (.validation "Response must contain at least one page")
  else
    match checkPagesFrom 0 r.pages with
    | .error e => .error e
    | .ok _ =>
      if r.usage_info.pages_processed ≠ (r.pages.length : Int) then
        .error (.validation ("Usage info pages_processed ("
          ++ toString r.usage_info.pages_processed
          ++ ") doesn't match actual pages (" ++ toString r.pages.length ++ ")"))
      else if r.usage_info.doc_size_bytes ≤ 0 then
        .error (.validation ("Invalid document size in usage info: "
          ++ toString r.usage_info.doc_size_bytes ++ " bytes"))
      else .ok ()

theorem checkPagesFrom_error {k : Nat} {ps : List Page} {e : Err}
    (h : checkPagesFrom k ps = .error e) : ∃ m, e = .validation m := by
  induction ps generalizing k with
  | nil => simp [checkPagesFrom] at h
  | cons p rest ih =>
    unfold checkPagesFrom at h
    split at h
    · exact ⟨_, (Except.error.inj h).symm⟩
    · split at h
      · exact ⟨_, (Except.error.inj h).symm⟩
      · exact ih h

theorem checkPagesFrom_ok_index {ps : List Page} {k : Nat}
    (h : checkPagesFrom k ps = .ok ()) :
    ∀ i (hi : i < ps.length), (ps.get ⟨i, hi⟩).index = ((k + i : Nat) : Int) := by
  induction ps generalizing k with
  | nil => intro i hi; simp at hi
  | cons p rest ih =>
    intro i hi
    unfold checkPagesFrom at h
    split at h
    · simp at h
    · split at h
      · simp at h
      · rename_i hidx _
        cases i with
        | zero =>
          simpa using not_not.mp hidx
        | succ j =>
          have hj : j < rest.length := by simpa using Nat.lt_of_succ_lt_succ hi
          have hrec := ih h j hj
          simp only [List.get_cons_succ]
          rw [hrec]
          congr 1
          omega

/-- C4 fails as stated: a 2xx upload response violating a §3 invariant
(here: empty id) is rejected by `FileUploadResponse::validate` with an
`Error::Validation` — category "validation", exit code 2 — not with
category "api" / exit code 5 as the claim states. -/
theorem C4_counterexample :
    fileUploadValidate 1700000000
        ⟨"", "file", 12, 1700000000, "t.pdf", "ocr", none⟩
      = .error (.validation "File ID cannot be empty") ∧
    (Err.validation "File ID cannot be empty").errorType = "validation" ∧
    (Err.validation "File ID cannot be empty").exitCode = 2 ∧
    ¬ (Err.validation "File ID cannot be empty").errorType = "api" ∧
    ¬ (Err.validation "File ID cannot be empty").exitCode = 5 := by
  refine ⟨by rfl, rfl, rfl, by decide, by decide⟩

/-- C4 amended: whenever a 2xx upload or OCR response parses as JSON but
violates one of the semantic invariants of §3, the resulting error has
category validation (exit code 2), not api. -/
theorem C4_invariant_violation_category :
    (∀ (now : Int) (r : FileUploadResponse) (e : Err),
      fileUploadValidate now r = .error e →
      e.errorType = "validation" ∧ e.exitCode = 2) ∧
    (∀ (resp : OCRResponse) (e : Err),
      ocrValidate resp = .error e →
      e.errorType = "validation" ∧ e.exitCode = 2) := by
  constructor
  · intro now r e h
    unfold fileUploadValidate at h
    repeat' split at h
    all_goals
      first
      | exact Except.noConfusion h
      | (have he := (Except.error.inj h).symm
         subst he
         exact ⟨rfl, rfl⟩)
  · intro resp e h
    unfold ocrValidate at h
    split at h
    · have he := (Except.error.inj h).symm; subst he; exact ⟨rfl, rfl⟩
    · split at h
      · have he := (Except.error.inj h).symm; subst he; exact ⟨rfl, rfl⟩
      · split at h
        · have he := (Except.error.inj h).symm; subst he; exact ⟨rfl, rfl⟩
        · split at h
          · rename_i e' heq
            have he := (Except.error.inj h).symm
            subst he
            obtain ⟨m, rfl⟩ := checkPagesFrom_error heq
            exact ⟨rfl, rfl⟩
          · split at h
            · have he := (Except.error.inj h).symm; subst he; exact ⟨rfl, rfl⟩
            · split at h
              · have he := (Except.error.inj h).symm; subst he; exact ⟨rfl, rfl⟩
              · exact Except.noConfusion h

/-- Witness for C4's amended theorem: the empty-id receipt and an OCR
response with a page-index mismatch both yield category validation and
exit code 2. -/
theorem C4_invariant_violation_witness :
    (fileUploadValidate 0 ⟨"", "file", 1, 1, "t.pdf", "ocr", none⟩
        = .error (.validation "File ID cannot be empty") ∧
      (Err.validation "File ID cannot be empty").errorType = "validation" ∧
      (Err.validation "File ID cannot be empty").exitCode = 2) ∧
    (ocrValidate
          ⟨[⟨1, "hello", [], ⟨200, 2200, 1700⟩⟩], "mistral-ocr-latest", none, ⟨1, 12⟩⟩
        = .error (.validation "Page index mismatch: expected 0, got 1") ∧
      (Err.validation "Page index mismatch: expected 0, got 1").errorType = "validation" ∧
      (Err.validation "Page index mismatch: expected 0, got 1").exitCode = 2) :=
  ⟨⟨by rfl,
    (C4_invariant_violation_category.1 0 ⟨"", "file", 1, 1, "t.pdf", "ocr", none⟩
      (.validation "File ID cannot be empty") (by rfl)).1,
    (C4_invariant_violation_category.1 0 ⟨"", "file", 1, 1, "t.pdf", "ocr", none⟩
      (.validation "File ID cannot be empty") (by rfl)).2⟩,
   ⟨by rfl,
    (C4_invariant_violation_category.2
      ⟨[⟨1, "hello", [], ⟨200, 2200, 1700⟩⟩], "mistral-ocr-latest", none, ⟨1, 12⟩⟩
      (.validation "Page index mismatch: expected 0, got 1") (by rfl)).1,
    (C4_invariant_violation_category.2
      ⟨[⟨1, "hello", [], ⟨200, 2200, 1700⟩⟩], "mistral-ocr-latest", none, ⟨1, 12⟩⟩
      (.validation "Page index mismatch: expected 0, got 1") (by rfl)).2⟩⟩

/-- C5: for every OCR response that passes validation, page i carries
index i for every ordinal, the pages are strictly ordered by index (so
the order they sit in equals page-index order), and the extracted text
is their markdowns joined in that order by the two-character separator
"\n\n". -/
theorem C5_extracted_text (r : OCRResponse) (h : ocrValidate r = .ok ()) :
    (∀ i (hi : i < r.pages.length), (r.pages.get ⟨i, hi⟩).index = (i : Int)) ∧
    r.pages.Pairwise (fun p q => p.index < q.index) ∧
    getExtractedText r = String.intercalate "\n\n" (r.pages.map Page.markdown) ∧
    ("\n\n" : String).length = 2 := by
  have hpages : checkPagesFrom 0 r.pages = .ok () := by
    unfold ocrValidate at h
    split at h
    · exact Except.noConfusion h
    · split at h
      · exact Except.noConfusion h
      · split at h
        · exact Except.noConfusion h
        · split at h
          · exact Except.noConfusion h
          · rename_i u heq
            cases u
            exact heq
  have hidx : ∀ i (hi : i < r.pages.length), (r.pages.get ⟨i, hi⟩).index = (i : Int) := by
    intro i hi
    simpa using checkPagesFrom_ok_index hpages i hi
  refine ⟨hidx, ?_, rfl, rfl⟩
  rw [List.pairwise_iff_get]
  intro i j hij
  rw [hidx i.1 i.2, hidx j.1 j.2]
  exact_mod_cast hij

/-- Witness for C5 at a concrete two-page response. -/
theorem C5_extracted_text_witness :
    ocrValidate
        ⟨[⟨0, "hello", [], ⟨200, 2200, 1700⟩⟩, ⟨1, "world", [], ⟨200, 2200, 1700⟩⟩],
          "mistral-ocr-latest", none, ⟨2, 12⟩⟩ = .ok () ∧
    getExtractedText
        ⟨[⟨0, "hello", [], ⟨200, 2200, 1700⟩⟩, ⟨1, "world", [], ⟨200, 2200, 1700⟩⟩],
          "mistral-ocr-latest", none, ⟨2, 12⟩⟩ = "hello\n\nworld" :=
  ⟨by rfl,
    by
      have := (C5_extracted_text
        ⟨[⟨0, "hello", [], ⟨200, 2200, 1700⟩⟩, ⟨1, "world", [], ⟨200, 2200, 1700⟩⟩],
          "mistral-ocr-latest", none, ⟨2, 12⟩⟩ (by rfl)).2.2.1
      rw [this]
      rfl⟩

/-- C6 fails as stated: the credential whose api_key is the valid
(non-empty, whitespace-free) secret "*" is redacted to "***", and the
transport's debug log line — a sink other than the Authorization header —
then contains the secret verbatim. -/
theorem C6_counterexample :
    credentialsKeyChecks ⟨"*", "https://api.mistral.ai", true⟩ = .ok () ∧
    redactedKey ⟨"*", "https://api.mistral.ai", true⟩ = "***" ∧
    strContains
      (logRequestMessage "POST" "https://api.mistral.ai/v1/files"
        ⟨"*", "https://api.mistral.ai", true⟩)
      "*" = true := by
  refine ⟨by rfl, by rfl, by decide⟩

/-- C6 amended: for secrets longer than 8 characters the redacted form —
the only form in which log sinks mention the credential — is the first
four characters followed by "***" and never contains the secret
verbatim. (Secrets of at most 8 characters are redacted to exactly "***",
which contains a degenerate secret such as "*".) -/
theorem C6_redaction_long_keys (c : APICredentials)
    (h : 8 < c.apiKey.length) :
    redactedKey c = String.mk (c.apiKey.data.take 4) ++ "***" ∧
    containsSeq (redactedKey c).data c.apiKey.data = false := by
  have hred : redactedKey c = String.mk (c.apiKey.data.take 4) ++ "***" := by
    unfold redactedKey
    rw [if_pos h]
  refine ⟨hred, ?_⟩
  by_contra hcon
  have hc : containsSeq (redactedKey c).data c.apiKey.data = true := by
    cases hx : containsSeq (redactedKey c).data c.apiKey.data
    · exact absurd hx hcon
    · rfl
  have hlen := containsSeq_length hc
  have hdata : (redactedKey c).data = c.apiKey.data.take 4 ++ ['*', '*', '*'] := by
    rw [hred]; rfl
  rw [hdata] at hlen
  have hkey : c.apiKey.length = c.apiKey.data.length := rfl
  simp only [List.length_append, List.length_take, List.length_cons,
    List.length_nil] at hlen
  omega

/-- Witness for C6's amended theorem at the 12-character secret
"secretkey123". -/
theorem C6_redaction_witness :
    8 < (APICredentials.mk "secretkey123" "https://api.mistral.ai" true).apiKey.length ∧
    (redactedKey ⟨"secretkey123", "https://api.mistral.ai", true⟩
        = String.mk (("secretkey123" : String).data.take 4) ++ "***" ∧
      containsSeq (redactedKey ⟨"secretkey123", "https://api.mistral.ai", true⟩).data
        ("secretkey123" : String).data = false) :=
  ⟨by decide, C6_redaction_long_keys ⟨"secretkey123", "https://api.mistral.ai", true⟩ (by decide)⟩

/-- `src/file.rs` `check_pdf_password_protection`'s error message. -/
def passwordProtectedMsg : String :=
  "Password-protected PDF detected. Please provide an unprotected PDF file."

/-- `src/file.rs` `FileUpload::check_pdf_password_protection`: probe the
first 8 KiB for the encryption markers. The file content is modelled as
its byte sequence read as characters; `from_utf8_lossy` maps ASCII bytes
to themselves and can neither create nor destroy an occurrence of the
all-ASCII markers, so `str::contains` on the lossy string agrees with
`containsSeq` on the bytes. -/
def checkPdfPasswordProtection (content : List Char) : Except Err Unit :=
  let c := content.take 8192
  if containsSeq c "/Encrypt".data || containsSeq c "/P -".data ||
      containsSeq c "/U ".data || containsSeq c "/O ".data ||
      containsSeq c "/Filter/Standard".data then
    .error (.validation passwordProtectedMsg)
  else .ok ()

/-- `src/file.rs` `FileUpload::validate_file_content`: read up to the
first 8 bytes, require at least 4, then dispatch on the magic bytes
(PDF `%PDF` 25 50 44 46, PNG 89 50 4E 47, JPEG FF D8 FF _). -/
def validateFileContent (path : String) (content : List Char) : Except Err Unit :=
  if content.length < 4 then
    .error (.validation "File too small to determine format")
  else if content.take 4 = ['%', 'P', 'D', 'F'] then
    checkPdfPasswordProtection content
  else if content.take 4 = [Char.ofNat 0x89, 'P', 'N', 'G'] then .ok ()
  else if content.take 3 = [Char.ofNat 0xFF, Char.ofNat 0xD8, Char.ofNat 0xFF] then .ok ()
  else
    .error (.validation ("File does not appear to be a valid PDF, PNG, or JPEG file: " ++ path))

/-- The MIME types `src/file.rs` `FileUpload::validate_file` accepts. -/
def supportedMimeTypes : List String :=
  ["application/pdf", "image/png", "image/jpeg", "image/jpg"]

/-- `src/file.rs` `FileUpload::validate_file`: the hardcoded 100 MB size
cap, the MIME allowlist, then the content check. (The source formats the
actual size into the message; a fixed text stands in for it here.) -/
def validateFile (path mime : String) (size : Nat) (content : List Char) : Except Err Unit :=
  if size > 100 * 1024 * 1024 then
    .error (.validation "File size exceeds maximum allowed size (100 MB)")
  else if ¬ supportedMimeTypes.contains mime then
    .error (.validation ("Unsupported file format: " ++ mime ++ ". Supported: pdf, png, jpg, jpeg"))
  else validateFileContent path content

/-- The validated file entity (`src/file.rs` `struct FileUpload`, the
fields the pipeline reads). -/
structure FileInfo where
  path : String
  mime : String
  size : Nat
deriving DecidableEq, Repr

/-- `src/file.rs` `FileUpload::new`: validate, then hand back the entity
(the filesystem existence/metadata reads are environmental; `mime` is
what `mime_guess` derived from the extension, `size` the metadata
length, `content` the file bytes). -/
def fileUploadNew (path mime : String) (size : Nat) (content : List Char) :
    Except Err FileInfo :=
  match validateFile path mime size content with
  | .error e => .error e
  | .ok _ => .ok ⟨path, mime, size⟩

/-- What a run of the pipeline did: how many network requests went out
(upload, then OCR), which file id the OCR request carried if one was
issued, and the run's outcome. -/
structure PipelineTrace where
  networkCalls : Nat
  ocrCalledWith : Option String
  result : Except Err String
deriving Repr

/-- The upload step of the pipeline (`src/api/files.rs`
`FilesClient::upload_file` after the HTTP exchange): take the parsed 2xx
receipt (or the transport's error) and apply
`FileUploadResponse::validate` before handing the receipt on. -/
def uploadStep (now : Int) (httpOutcome : Except Err FileUploadResponse) :
    Except Err FileUploadResponse :=
  match httpOutcome with
  | .error e => .error e
  | .ok r =>
    match fileUploadValidate now r with
    | .error e => .error e
    | .ok _ => .ok r

/-- `src/cli/commands.rs` `process_ocr_command`: validate the file, check
the configured size cap, build credentials, upload, then invoke OCR with
the receipt's id; any failure short-circuits. `uploadHttp` is the parsed
outcome of the upload HTTP exchange, `ocrStep` the outcome of
`OCRClient::process_ocr` (parse and `OCRResponse::validate` included) as
a function of the file id it is invoked with. -/
def processOcrCommand (maxFileSizeMb : Nat) (path mime : String) (size : Nat)
    (content : List Char) (credsOutcome : Except Err Unit) (now : Int)
    (uploadHttp : Except Err FileUploadResponse)
    (ocrStep : String → Except Err OCRResponse) : PipelineTrace :=
  match fileUploadNew path mime size content with
  | .error e => ⟨0, none, .error e⟩
  | .ok _ =>
    if size > maxFileSizeMb * 1024 * 1024 then
      ⟨0, none, .error (.validation "File size exceeds maximum allowed size")⟩
    else
      match credsOutcome with
      | .error e => ⟨0, none, .error e⟩
      | .ok _ =>
        match uploadStep now uploadHttp with
        | .error e => ⟨1, none, .error e⟩
        | .ok receipt =>
          match ocrStep receipt.id with
          | .error e => ⟨2, some receipt.id, .error e⟩
          | .ok resp => ⟨2, some receipt.id, .ok (getExtractedText resp)⟩

/-- `src/ocr.rs` `struct OCRResult` (the fields the output path reads;
`usage` and `timestamp` are unused by the modelled operations). -/
structure OCRResult where
  extracted_text : String
  file_id : String
  model : String
  file_name : String
  file_size : Nat
deriving DecidableEq, Repr

/-- `src/ocr.rs` `OCRResult::get_processing_time_ms`: the source returns
the hardcoded placeholder 2000 for every result. -/
def OCRResult.getProcessingTimeMs (_r : OCRResult) : Nat := 2000

/-- The `data` object of `src/ocr.rs` `OCRResult::to_json_output`. -/
structure SuccessData where
  extracted_text : String
  file_name : String
  file_size : Nat
  processing_time_ms : Nat
deriving DecidableEq, Repr

/-- `src/ocr.rs` `OCRResult::to_json_output`, restricted to its `data`
fields. -/
def OCRResult.toJsonData (r : OCRResult) : SuccessData :=
  ⟨r.extracted_text, r.file_name, r.file_size, r.getProcessingTimeMs⟩

/-- C7 fails on the code: the `processing_time_ms` of the success output
is the constant 2000 for every result — `get_processing_time_ms` ignores
the result and returns a placeholder — not the elapsed wall-clock
milliseconds between pipeline step 1 and step 6. -/
theorem C7_processing_time_constant :
    ∀ r : OCRResult,
      r.getProcessingTimeMs = 2000 ∧ r.toJsonData.processing_time_ms = 2000 :=
  fun _ => ⟨rfl, rfl⟩

/-- C8: a file whose first four bytes are %PDF and whose first 8 KiB
contain an encryption marker fails construction with the
password-protection validation error (exit code 2), and the pipeline
makes no network request for it. -/
theorem C8_encrypted_pdf (path : String) (content : List Char) (size maxMb : Nat)
    (credsOutcome : Except Err Unit) (now : Int)
    (uploadHttp : Except Err FileUploadResponse)
    (ocrStep : String → Except Err OCRResponse)
    (hmagic : content.take 4 = ['%', 'P', 'D', 'F'])
    (hmark : (containsSeq (content.take 8192) "/Encrypt".data ||
        containsSeq (content.take 8192) "/P -".data ||
        containsSeq (content.take 8192) "/U ".data ||
        containsSeq (content.take 8192) "/O ".data ||
        containsSeq (content.take 8192) "/Filter/Standard".data) = true)
    (hsize : size ≤ 100 * 1024 * 1024) :
    fileUploadNew path "application/pdf" size content
      = .error (.validation passwordProtectedMsg) ∧
    processOcrCommand maxMb path "application/pdf" size content credsOutcome now
        uploadHttp ocrStep
      = ⟨0, none, .error (.validation passwordProtectedMsg)⟩ ∧
    (Err.validation passwordProtectedMsg).exitCode = 2 ∧
    strContains passwordProtectedMsg "Password-protected" = true := by
  have htake : (content.take 4).length = 4 := by rw [hmagic]; rfl
  have hlen : 4 ≤ content.length := by
    rw [List.length_take] at htake; omega
  have hcontent : validateFileContent path content
      = .error (.validation passwordProtectedMsg) := by
    unfold validateFileContent
    rw [if_neg (by omega), if_pos hmagic]
    unfold checkPdfPasswordProtection
    rw [if_pos hmark]
  have hfile : fileUploadNew path "application/pdf" size content
      = .error (.validation passwordProtectedMsg) := by
    unfold fileUploadNew validateFile
    rw [if_neg (by omega), if_neg (by decide), hcontent]
  refine ⟨hfile, ?_, rfl, by decide⟩
  unfold processOcrCommand
  rw [hfile]

/-- Witness for C8 at a concrete 21-character encrypted PDF. -/
theorem C8_encrypted_pdf_witness :
    ("%PDF-1.4 /Encrypt 0 R" : String).data.take 4 = ['%', 'P', 'D', 'F'] ∧
    (containsSeq (("%PDF-1.4 /Encrypt 0 R" : String).data.take 8192) "/Encrypt".data ||
      containsSeq (("%PDF-1.4 /Encrypt 0 R" : String).data.take 8192) "/P -".data ||
      containsSeq (("%PDF-1.4 /Encrypt 0 R" : String).data.take 8192) "/U ".data ||
      containsSeq (("%PDF-1.4 /Encrypt 0 R" : String).data.take 8192) "/O ".data ||
      containsSeq (("%PDF-1.4 /Encrypt 0 R" : String).data.take 8192) "/Filter/Standard".data)
      = true ∧
    (21 : Nat) ≤ 100 * 1024 * 1024 ∧
    (fileUploadNew "doc.pdf" "application/pdf" 21 ("%PDF-1.4 /Encrypt 0 R" : String).data
        = .error (.validation passwordProtectedMsg) ∧
      processOcrCommand 100 "doc.pdf" "application/pdf" 21
          ("%PDF-1.4 /Encrypt 0 R" : String).data (.ok ()) 0
          (.error (.internal "unused")) (fun _ => .error (.internal "unused"))
        = ⟨0, none, .error (.validation passwordProtectedMsg)⟩ ∧
      (Err.validation passwordProtectedMsg).exitCode = 2 ∧
      strContains passwordProtectedMsg "Password-protected" = true) :=
  ⟨by decide, by decide, by decide,
    C8_encrypted_pdf "doc.pdf" ("%PDF-1.4 /Encrypt 0 R" : String).data 21 100
      (.ok ()) 0 (.error (.internal "unused")) (fun _ => .error (.internal "unused"))
      (by decide) (by decide) (by decide)⟩

/-- C9: a 2xx upload receipt that satisfies every other §3 invariant and
carries status "error" passes `FileUploadResponse::validate` (the status
only logs a warning), and the pipeline proceeds to issue the OCR request
with exactly that receipt's id. -/
theorem C9_status_error_proceeds (r : FileUploadResponse) (now : Int)
    (maxMb : Nat) (path mime : String) (size : Nat) (content : List Char)
    (ocrStep : String → Except Err OCRResponse)
    (hid : r.id ≠ "")
    (hidchars : (r.id.data.all fun c => c.isAlphanum || c = '-' || c = '_') = true)
    (hobj : r.object = "file")
    (hbytes : 0 < r.bytes)
    (hcreated : 0 < r.created_at)
    (hfuture : r.created_at ≤ now + 3600)
    (hname : r.filename ≠ "")
    (hsep : (r.filename.data.contains '/' || r.filename.data.contains '\\') = false)
    (hpurpose : r.purpose = "ocr")
    (hstatus : r.status = some "error")
    (hfileOk : validateFile path mime size content = .ok ())
    (hsz : ¬ size > maxMb * 1024 * 1024) :
    fileUploadValidate now r = .ok () ∧
    (processOcrCommand maxMb path mime size content (.ok ()) now (.ok r)
      ocrStep).ocrCalledWith = some r.id := by
  have hval : fileUploadValidate now r = .ok () := by
    unfold fileUploadValidate
    rw [if_neg hid, if_neg (not_not_intro hidchars), if_neg (not_not_intro hobj),
      if_neg (by omega), if_neg (by omega), if_neg (by omega), if_neg hname,
      if_neg (by rw [hsep]; simp), if_neg (not_not_intro hpurpose), hstatus]
    rfl
  refine ⟨hval, ?_⟩
  have hnew : fileUploadNew path mime size content = .ok ⟨path, mime, size⟩ := by
    unfold fileUploadNew
    rw [hfileOk]
  have hup : uploadStep now (.ok r) = .ok r := by
    simp only [uploadStep, hval]
  have hpipe : processOcrCommand maxMb path mime size content (.ok ()) now (.ok r) ocrStep
      = match ocrStep r.id with
        | .error e => ⟨2, some r.id, .error e⟩
        | .ok resp => ⟨2, some r.id, .ok (getExtractedText resp)⟩ := by
    unfold processOcrCommand
    rw [hnew, if_neg hsz, hup]
  rw [hpipe]
  cases ocrStep r.id <;> rfl

/-- Witness for C9 at a concrete receipt with status "error". -/
theorem C9_status_error_witness :
    ((FileUploadResponse.mk "file-abc123" "file" 12 100 "t.pdf" "ocr" (some "error")).id ≠ "" ∧
      (FileUploadResponse.mk "file-abc123" "file" 12 100 "t.pdf" "ocr"
        (some "error")).status = some "error" ∧
      validateFile "doc.pdf" "application/pdf" 12 ("%PDF-1.4 hi" : String).data = .ok ()) ∧
    (fileUploadValidate 1000 ⟨"file-abc123", "file", 12, 100, "t.pdf", "ocr", some "error"⟩
        = .ok () ∧
      (processOcrCommand 100 "doc.pdf" "application/pdf" 12 ("%PDF-1.4 hi" : String).data
          (Except.ok ()) 1000
          (Except.ok ⟨"file-abc123", "file", 12, 100, "t.pdf", "ocr", some "error"⟩)
          (fun _ => Except.error (Err.internal "unused"))).ocrCalledWith
        = some "file-abc123") :=
  ⟨⟨by decide, rfl, by rfl⟩,
    C9_status_error_proceeds
      ⟨"file-abc123", "file", 12, 100, "t.pdf", "ocr", some "error"⟩ 1000 100
      "doc.pdf" "application/pdf" 12 ("%PDF-1.4 hi" : String).data
      (fun _ => Except.error (Err.internal "unused"))
      (by decide) (by decide) (by decide) (by decide) (by decide) (by decide)
      (by decide) (by decide) (by decide) (by decide) (by rfl) (by decide)⟩

/-- C10: a credential whose api_key has at most 8 characters is redacted
to exactly "***", revealing none of the secret's characters; only longer
keys take the first-four-then-"***" branch. -/
theorem C10_short_key_redaction (c : APICredentials)
    (h : c.apiKey.length ≤ 8) : redactedKey c = "***" := by
  unfold redactedKey
  rw [if_neg (by omega)]

/-- Witness for C10 at the 5-character key "short". -/
theorem C10_short_key_witness :
    (APICredentials.mk "short" "https://api.mistral.ai" true).apiKey.length ≤ 8 ∧
    redactedKey ⟨"short", "https://api.mistral.ai", true⟩ = "***" :=
  ⟨by decide, C10_short_key_redaction ⟨"short", "https://api.mistral.ai", true⟩ (by decide)⟩

end POcr
